import Mathlib

/-!
Shallow embedding of the VentilationSystem controller
(`src/ventilation.py`) and proofs about its decision rules,
configuration handling and shutdown behaviour.

Python floats are modelled as rationals (`ℚ`); the comparisons and
arithmetic the code performs on them (`<`, `>`, `+`, `-` with literal
constants) agree with the rational model on all inputs the claims
quantify over.  The settings dictionary (`Dict[str, Any]`) is modelled
as an association list of string keys and JSON values, with Python's
`dict.__setitem__` / `dict.update` semantics spelled out; the
well-typed view used by the decision rules is the `Config` structure
holding the five settings fields.
-/

/-- A JSON value as stored in the settings dictionary. -/
inductive JVal where
  | num (q : ℚ)
  | bool (b : Bool)
  | str (s : String)
deriving DecidableEq, Repr

/-- The settings dictionary: insertion-ordered string-keyed map,
as Python's `dict` (at most one binding per key when built by the code). -/
abbrev Settings := List (String × JVal)

/-- First-match lookup, `d[key]` / `key in d`. -/
def dlookup : Settings → String → Option JVal
  | [], _ => none
  | (k, v) :: rest, key => if k = key then some v else dlookup rest key

/-- Bool-valued key membership, Python's `key in d`. -/
def containsKey : Settings → String → Bool
  | [], _ => false
  | (k, _) :: rest, key => if k = key then true else containsKey rest key

/-- Python `d[key] = v`: overwrite the binding in place if the key is
present, else append the new binding at the end (insertion order). -/
def dictSet (d : Settings) (key : String) (v : JVal) : Settings :=
  if containsKey d key then d.map (fun p => if p.1 = key then (key, v) else p)
  else d ++ [(key, v)]

/-- Python `d.update(data)`: set each binding of `data`, in order. -/
def dictUpdate (d : Settings) (data : Settings) : Settings :=
  data.foldl (fun acc kv => dictSet acc kv.1 kv.2) d

/-- The typed view of the five settings fields (the spec's `Config`). -/
structure Config where
  target_temp : ℚ
  target_humidity : ℚ
  co2_limit : ℚ
  min_airflow : ℚ
  recuperator_enabled : Bool
deriving DecidableEq, Repr

/-- `SensorData` dataclass: one reading per cycle. -/
structure SensorData where
  temperature : ℚ
  humidity : ℚ
  co2 : ℚ
  airflow : ℚ
deriving DecidableEq, Repr

/-- `SystemState` dataclass: the actuator state, defaults all-off. -/
structure SystemState where
  heating : Bool := false
  cooling : Bool := false
  humidifier : Bool := false
  fan_speed : ℤ := 0
  recuperator : Bool := false
deriving DecidableEq, Repr

/-- `VentilationSystem.control_heating`: turn the heater on below
`target - 1.0`, off above `target + 0.5`, otherwise leave `self.state`
untouched (the `if`/`elif` has no `else` branch). -/
def control_heating (cfg : Config) (st : SystemState) (temp : ℚ) : SystemState :=
  let target := cfg.target_temp
  if temp < target - 1.0 then { st with heating := true }
  else if temp > target + 0.5 then { st with heating := false }
  else st

/-- `VentilationSystem.control_cooling`: cooling on above
`target_temp + 3.0`, off otherwise (`if`/`else`, no hold). -/
def control_cooling (cfg : Config) (st : SystemState) (temp : ℚ) : SystemState :=
  let max_temp := cfg.target_temp + 3.0
  if temp > max_temp then { st with cooling := true }
  else { st with cooling := false }

/-- `VentilationSystem.control_humidifier`: on below `target - 5.0`,
off above `target + 3.0`, otherwise hold (no `else` branch). -/
def control_humidifier (cfg : Config) (st : SystemState) (humidity : ℚ) : SystemState :=
  let target := cfg.target_humidity
  if humidity < target - 5.0 then { st with humidifier := true }
  else if humidity > target + 3.0 then { st with humidifier := false }
  else st

/-- `VentilationSystem.control_fan`: speed 100 when `co2 > co2_limit`
or `airflow < min_airflow`, else 50. -/
def control_fan (cfg : Config) (st : SystemState) (co2 airflow : ℚ) : SystemState :=
  if co2 > cfg.co2_limit ∨ airflow < cfg.min_airflow then { st with fan_speed := 100 }
  else { st with fan_speed := 50 }

/-- `VentilationSystem.control_recuperator`: on when enabled and
`temp > 5.0`, off otherwise (`if`/`else`, no hold). -/
def control_recuperator (cfg : Config) (st : SystemState) (temp : ℚ) : SystemState :=
  if cfg.recuperator_enabled ∧ temp > 5.0 then { st with recuperator := true }
  else { st with recuperator := false }

/-- `VentilationSystem.update_system`: one decision cycle over the
current reading.  The sensor read (`read_sensors`, randomized in the
source) is modelled as the input `data`; the five rules run in source
order, each threading the actuator state. -/
def update_system (cfg : Config) (st : SystemState) (data : SensorData) : SystemState :=
  let st1 := control_heating cfg st data.temperature
  let st2 := control_cooling cfg st1 data.temperature
  let st3 := control_humidifier cfg st2 data.humidity
  let st4 := control_fan cfg st3 data.co2 data.airflow
  control_recuperator cfg st4 data.temperature

/-- `VentilationSystem.cleanup` (invoked from the `finally` block of
`run` once the stop signal is processed): replace the actuator state
with a fresh `SystemState()`, i.e. everything off. -/
def cleanup (_ : SystemState) : SystemState := {}

section DecisionRules

/-- C3: one evaluation of the heating rule gives heating = true below
`target_temp - 1.0`, false above `target_temp + 0.5`, and the previous
cycle's value in between (hysteresis hold). -/
theorem heating_hysteresis (cfg : Config) (st : SystemState) (temp : ℚ) :
    (control_heating cfg st temp).heating =
      if temp < cfg.target_temp - 1.0 then true
      else if temp > cfg.target_temp + 0.5 then false
      else st.heating := by
  simp only [control_heating]
  split_ifs <;> rfl

/-- C4: after one evaluation of the cooling rule, cooling is true iff
`temperature > target_temp + 3.0`, and the result never depends on the
previous actuator state. -/
theorem cooling_no_hysteresis (cfg : Config) (st : SystemState) (temp : ℚ) :
    ((control_cooling cfg st temp).cooling = true ↔ temp > cfg.target_temp + 3.0) ∧
    ∀ st' : SystemState,
      (control_cooling cfg st temp).cooling = (control_cooling cfg st' temp).cooling := by
  simp only [control_cooling]
  constructor
  · split_ifs with h <;> simp [h]
  · intro st'
    split_ifs <;> rfl

/-- C5: the fan rule always yields speed exactly 50 or exactly 100, and
yields 100 iff `co2 > co2_limit` or `airflow < min_airflow`. -/
theorem fan_two_levels (cfg : Config) (st : SystemState) (co2 airflow : ℚ) :
    ((control_fan cfg st co2 airflow).fan_speed = 50 ∨
      (control_fan cfg st co2 airflow).fan_speed = 100) ∧
    ((control_fan cfg st co2 airflow).fan_speed = 100 ↔
      co2 > cfg.co2_limit ∨ airflow < cfg.min_airflow) := by
  simp only [control_fan]
  split_ifs with h
  · exact ⟨Or.inr rfl, by simp [h]⟩
  · refine ⟨Or.inl rfl, ?_⟩
    simp only [h, iff_false]
    decide

/-- C6: after one evaluation of the recuperator rule, recuperator is
true iff `recuperator_enabled` and `temperature > 5.0`, independent of
the previous actuator state. -/
theorem recuperator_rule (cfg : Config) (st : SystemState) (temp : ℚ) :
    ((control_recuperator cfg st temp).recuperator = true ↔
      cfg.recuperator_enabled = true ∧ temp > 5.0) ∧
    ∀ st' : SystemState,
      (control_recuperator cfg st temp).recuperator =
        (control_recuperator cfg st' temp).recuperator := by
  simp only [control_recuperator]
  constructor
  · split_ifs with h <;> simp_all
  · intro st'
    split_ifs <;> rfl

lemma control_cooling_heating (cfg : Config) (st : SystemState) (t : ℚ) :
    (control_cooling cfg st t).heating = st.heating := by
  simp only [control_cooling]; split_ifs <;> rfl

lemma control_humidifier_heating (cfg : Config) (st : SystemState) (h : ℚ) :
    (control_humidifier cfg st h).heating = st.heating := by
  simp only [control_humidifier]; split_ifs <;> rfl

lemma control_humidifier_cooling (cfg : Config) (st : SystemState) (h : ℚ) :
    (control_humidifier cfg st h).cooling = st.cooling := by
  simp only [control_humidifier]; split_ifs <;> rfl

lemma control_fan_heating (cfg : Config) (st : SystemState) (c a : ℚ) :
    (control_fan cfg st c a).heating = st.heating := by
  simp only [control_fan]; split_ifs <;> rfl

lemma control_fan_cooling (cfg : Config) (st : SystemState) (c a : ℚ) :
    (control_fan cfg st c a).cooling = st.cooling := by
  simp only [control_fan]; split_ifs <;> rfl

lemma control_recuperator_heating (cfg : Config) (st : SystemState) (t : ℚ) :
    (control_recuperator cfg st t).heating = st.heating := by
  simp only [control_recuperator]; split_ifs <;> rfl

lemma control_recuperator_cooling (cfg : Config) (st : SystemState) (t : ℚ) :
    (control_recuperator cfg st t).cooling = st.cooling := by
  simp only [control_recuperator]; split_ifs <;> rfl

/-- C10: after one full decision cycle (all five rules on the same
temperature), heating and cooling are never both on: cooling requires
`temperature > target_temp + 3.0`, which forces the heating rule's off
branch `temperature > target_temp + 0.5` in the same cycle. -/
theorem heating_cooling_exclusive (cfg : Config) (st : SystemState) (d : SensorData) :
    (update_system cfg st d).heating = false ∨
    (update_system cfg st d).cooling = false := by
  by_cases hc : d.temperature > cfg.target_temp + 3.0
  · left
    show (update_system cfg st d).heating = false
    simp only [update_system]
    rw [control_recuperator_heating, control_fan_heating,
      control_humidifier_heating, control_cooling_heating]
    simp only [control_heating]
    have h1 : ¬ d.temperature < cfg.target_temp - 1.0 := by
      push_neg
      nlinarith [hc]
    have h2 : d.temperature > cfg.target_temp + 0.5 := by nlinarith [hc]
    simp [h1, h2]
  · right
    show (update_system cfg st d).cooling = false
    simp only [update_system]
    rw [control_recuperator_cooling, control_fan_cooling,
      control_humidifier_cooling]
    simp only [control_cooling]
    simp [hc]

/-- C7: the cleanup that runs when the stop signal is processed yields
the all-off actuator state, whatever the state was before. -/
theorem cleanup_all_off (s : SystemState) :
    cleanup s = { heating := false, cooling := false, humidifier := false,
                  fan_speed := 0, recuperator := false } := rfl

end DecisionRules

section ConfigStore

/-- Error values that can escape the settings code:
`json.JSONDecodeError` raised by `json.load` on unparsable contents
(only `FileNotFoundError` is caught by `load_settings`). -/
inductive PyError where
  | jsonDecodeError
deriving DecidableEq, Repr

/-- The durable `settings.json` file: absent, present but unparsable,
or holding a parsed JSON object. -/
inductive FileState where
  | absent
  | invalid
  | stored (s : Settings)
deriving DecidableEq, Repr

/-- The default dictionary `load_settings` returns when `settings.json`
is missing. -/
def defaultSettings : Settings :=
  [("target_temp", JVal.num 22.0),
   ("target_humidity", JVal.num 50.0),
   ("co2_limit", JVal.num 800),
   ("min_airflow", JVal.num 30.0),
   ("recuperator_enabled", JVal.bool true)]

/-- `VentilationSystem.load_settings`: `open` + `json.load` inside a
`try` whose only handler catches `FileNotFoundError`.  An absent file
yields the defaults; a present but unparsable file makes `json.load`
raise `json.JSONDecodeError`, which is not caught and propagates to
the caller. -/
def load_settings : FileState → Except PyError Settings
  | FileState.absent => Except.ok defaultSettings
  | FileState.invalid => Except.error PyError.jsonDecodeError
  | FileState.stored s => Except.ok s

/-- `VentilationSystem.save_settings`: `json.dump(self.settings, f)`,
leaving the file holding exactly the current settings dictionary. -/
def save_settings (s : Settings) : FileState := FileState.stored s

/-- The `POST /settings` handler `update_settings`:
`self.settings.update(data)` followed by `self.save_settings()`.
Returns the new in-memory dictionary and the resulting file state
(the handler itself always answers `{"status": "ok"}`). -/
def update_settings (settings data : Settings) : Settings × FileState :=
  let merged := dictUpdate settings data
  (merged, save_settings merged)

lemma dlookup_append (a b : Settings) (key : String) :
    dlookup (a ++ b) key = (dlookup a key).or (dlookup b key) := by
  induction a with
  | nil => simp [dlookup]
  | cons p rest ih =>
    obtain ⟨k, v⟩ := p
    by_cases hk : k = key <;> simp [dlookup, hk, ih]

lemma dlookup_eq_none_of_not_contains (d : Settings) (key : String)
    (h : containsKey d key = false) : dlookup d key = none := by
  induction d with
  | nil => rfl
  | cons p rest ih =>
    obtain ⟨k, v⟩ := p
    by_cases hk : k = key
    · simp [containsKey, hk] at h
    · simp only [containsKey, if_neg hk] at h
      simp [dlookup, hk, ih h]

lemma dlookup_cons (k1 : String) (v1 : JVal) (l : Settings) (key : String) :
    dlookup ((k1, v1) :: l) key = if k1 = key then some v1 else dlookup l key := rfl

lemma containsKey_cons (k1 : String) (v1 : JVal) (l : Settings) (key : String) :
    containsKey ((k1, v1) :: l) key =
      if k1 = key then true else containsKey l key := rfl

lemma dlookup_map_set_self (d : Settings) (k : String) (v : JVal)
    (h : containsKey d k = true) :
    dlookup (d.map (fun p => if p.1 = k then (k, v) else p)) k = some v := by
  induction d with
  | nil => simp [containsKey] at h
  | cons p rest ih =>
    obtain ⟨k1, v1⟩ := p
    rw [containsKey_cons] at h
    rw [List.map_cons]
    by_cases hk : k1 = k
    · rw [if_pos hk, dlookup_cons, if_pos rfl]
    · rw [if_neg hk] at h
      rw [if_neg hk, dlookup_cons, if_neg hk]
      exact ih h

lemma dlookup_map_set_other (d : Settings) (k : String) (v : JVal)
    (key : String) (h : key ≠ k) :
    dlookup (d.map (fun p => if p.1 = k then (k, v) else p)) key =
      dlookup d key := by
  induction d with
  | nil => rfl
  | cons p rest ih =>
    obtain ⟨k1, v1⟩ := p
    rw [List.map_cons]
    by_cases hk : k1 = k
    · rw [if_pos hk, dlookup_cons, dlookup_cons]
      rw [if_neg (fun e => h e.symm)]
      have hk1 : ¬ k1 = key := by
        rw [hk]
        exact fun e => h e.symm
      rw [if_neg hk1, ih]
    · rw [if_neg hk, dlookup_cons, dlookup_cons]
      by_cases hkey : k1 = key
      · rw [if_pos hkey, if_pos hkey]
      · rw [if_neg hkey, if_neg hkey, ih]

lemma dlookup_dictSet (d : Settings) (k : String) (v : JVal) (key : String) :
    dlookup (dictSet d k v) key = if key = k then some v else dlookup d key := by
  unfold dictSet
  by_cases hc : containsKey d k = true
  · rw [if_pos hc]
    by_cases hk : key = k
    · subst hk
      rw [if_pos rfl, dlookup_map_set_self d key v hc]
    · rw [if_neg hk, dlookup_map_set_other d k v key hk]
  · have hcf : containsKey d k = false := by
      cases hcc : containsKey d k
      · rfl
      · exact absurd hcc hc
    rw [if_neg hc, dlookup_append]
    by_cases hk : key = k
    · subst hk
      rw [dlookup_eq_none_of_not_contains d key hcf]
      simp [dlookup]
    · have h1 : dlookup [(k, v)] key = none := by
        simp [dlookup, Ne.symm hk]
      rw [if_neg hk, h1, Option.or_none]

lemma dlookup_dictUpdate (data : Settings) (d : Settings) (key : String) :
    dlookup (dictUpdate d data) key =
      (dlookup data.reverse key).or (dlookup d key) := by
  induction data generalizing d with
  | nil => simp [dictUpdate, dlookup]
  | cons p ps ih =>
    obtain ⟨k, v⟩ := p
    have step : dictUpdate d ((k, v) :: ps) = dictUpdate (dictSet d k v) ps := rfl
    rw [step, ih, dlookup_dictSet, List.reverse_cons, dlookup_append]
    by_cases hk : key = k
    · subst hk
      have h1 : dlookup [(key, v)] key = some v := by simp [dlookup]
      rw [if_pos rfl, h1, Option.or_assoc, Option.or_some]
    · have h1 : dlookup [(k, v)] key = none := by
        simp [dlookup, Ne.symm hk]
      rw [if_neg hk, h1, Option.or_none]

/-- C1 counterexample: a settings file that is present but unparsable
does not make `load_settings` return the defaults — the
`json.JSONDecodeError` propagates to the caller, because the `try`
block catches only `FileNotFoundError`. -/
theorem load_settings_parse_failure_cex :
    load_settings FileState.invalid = Except.error PyError.jsonDecodeError := rfl

/-- C1 (amended): if the settings file is absent, `load_settings`
returns the documented default configuration and raises nothing; if
the file exists but cannot be parsed, the parse error propagates to
the caller instead of being replaced by the defaults. -/
theorem load_settings_amended :
    load_settings FileState.absent = Except.ok defaultSettings ∧
    load_settings FileState.invalid = Except.error PyError.jsonDecodeError :=
  ⟨rfl, rfl⟩

/-- C2 counterexample: patching the default configuration with the
unknown key `"mode"` puts that key into the in-memory settings
dictionary (and hence into the persisted copy), contradicting the
claim that keys outside the five known fields are ignored. -/
theorem update_settings_unknown_field_cex :
    dlookup (update_settings defaultSettings [("mode", JVal.num 1)]).1 "mode" =
      some (JVal.num 1) := by decide

/-- C2 (amended): the configuration-update endpoint merges every key
of the patch — known or unknown — into the current configuration
(`dict.update` semantics: a key bound in the patch gets its last
patch value, any other key keeps its prior value), raises no error,
and persists exactly the merged dictionary. -/
theorem update_settings_merge (settings data : Settings) :
    (∀ key, dlookup (update_settings settings data).1 key =
      (dlookup data.reverse key).or (dlookup settings key)) ∧
    (update_settings settings data).2 =
      FileState.stored (update_settings settings data).1 :=
  ⟨fun key => dlookup_dictUpdate data settings key, rfl⟩

/-- C8: applying an empty patch leaves the settings dictionary
unchanged and still persists it successfully. -/
theorem empty_patch_identity (settings : Settings) :
    update_settings settings [] = (settings, FileState.stored settings) := rfl

/-- C9: `save_settings` followed by `load_settings` returns exactly
the dictionary that was saved (in particular a configuration holding
the five settings fields round-trips with all five fields equal). -/
theorem save_load_roundtrip (s : Settings) :
    load_settings (save_settings s) = Except.ok s := rfl

end ConfigStore
